import Mathlib

/-!
# Verification of `build.py` (3D HUD cross-platform build script)

A shallow embedding of `build.py`.  The script only inspects its host
environment (OS name, environment variables, path existence, CPU count),
creates/removes directories, and shells out to `conan` and `cmake`; we model a
run as a list of `Event`s (subprocess invocations together with the exit status
the environment gave them, directory creation/removal, environment-variable
checks, and `Error:` messages printed by the script).  The outside world —
exit statuses of the probed and invoked external commands, contents of
environment variables, existence of paths — is passed in as explicit
parameters, so every function is a pure function from its inputs and the
world to the event trace it produces plus its Python return value.

Informational prints (banners, version echoes) are not modelled; the `Error:`
prints are, because the error taxonomy is part of the spec.  Python falsiness
of strings (`if not arch:`) is modelled by `Option String` together with
emptiness of the wrapped string.
-/

namespace Build

/-- Result the operating system gives for one attempted subprocess invocation:
either the executable was not found (Python raises `FileNotFoundError`) or it
ran and returned an exit code. -/
inductive ProcResult where
  | notFound : ProcResult
  | exit : Int → ProcResult
deriving DecidableEq, Repr

/-- One observable effect of a run of the script. -/
inductive Event where
  /-- A subprocess invocation (the full argv) together with its result. -/
  | run : List String → ProcResult → Event
  /-- `Path.mkdir(exist_ok=True)` on the given path. -/
  | mkdir : String → Event
  /-- `shutil.rmtree` on the given path. -/
  | rmtree : String → Event
  /-- The script read and validated the named environment variable. -/
  | envCheck : String → Event
  /-- The script printed the given `Error: ...` message. -/
  | err : String → Event
deriving DecidableEq, Repr

/-- The external commands attempted during a trace, in order. -/
def runCmds : List Event → List (List String)
  | [] => []
  | .run c _ :: es => c :: runCmds es
  | _ :: es => runCmds es

/-- The `Error:` messages printed during a trace, in order. -/
def errMsgs : List Event → List String
  | [] => []
  | .err m :: es => m :: errMsgs es
  | _ :: es => errMsgs es

/-- The paths passed to `mkdir` during a trace, in order. -/
def mkdirPaths : List Event → List String
  | [] => []
  | .mkdir p :: es => p :: mkdirPaths es
  | _ :: es => mkdirPaths es

/-- The paths passed to `shutil.rmtree` during a trace, in order. -/
def rmtreePaths : List Event → List String
  | [] => []
  | .rmtree p :: es => p :: rmtreePaths es
  | _ :: es => rmtreePaths es

/-- Whether the trace checked the named environment variable. -/
def checkedEnv (v : String) : List Event → Bool
  | [] => false
  | .envCheck w :: es => w == v || checkedEnv v es
  | _ :: es => checkedEnv v es

/-- Whether some attempted subprocess in the trace failed (executable missing
or non-zero exit code). -/
def hasFailedRun : List Event → Bool
  | [] => false
  | .run _ .notFound :: _ => true
  | .run _ (.exit c) :: es => c != 0 || hasFailedRun es
  | _ :: es => hasFailedRun es

/-- `subprocess.run([...,"--version"]).returncode == 0` viewed as a Bool; a
missing executable is not OK. -/
def probeOk : ProcResult → Bool
  | .notFound => false
  | .exit c => c == 0

/-- Python's `f"{x}"` on an `os.environ.get` result: `None` prints as the
string `"None"`. -/
def pyStr : Option String → String
  | none => "None"
  | some s => s

/-- Python's `if not arch: arch = d`: `None` and the empty string are falsy. -/
def archOrDefault (arch : Option String) (d : String) : String :=
  match arch with
  | none => d
  | some a => if a.isEmpty then d else a

/-! ## `detect_platform` (build.py lines 28–42) -/

/-- `str.lower()` on the character list of a string (the OS names involved
are ASCII, where this agrees with Python). -/
def strLower (s : String) : String := ⟨s.data.map Char.toLower⟩

/-- `detect_platform()`: lowercases `platform.system()` and maps it to one of
`"windows"`, `"linux"`, `"macos"`, `"unknown"`. -/
def detect_platform (system : String) : String :=
  let s := strLower system
  if s = "windows" then "windows"
  else if s = "linux" then "linux"
  else if s = "darwin" then "macos"
  else "unknown"

/-! ## Prerequisite checks (build.py lines 44–129) -/

/-- `check_android_prerequisites()`: requires `ANDROID_NDK_HOME` to be set,
non-empty and an existing path.  `pathExists` models `os.path.exists`. -/
def check_android_prerequisites (ndk : Option String)
    (pathExists : String → Bool) : List Event × Bool :=
  match ndk with
  | none =>
    ([.envCheck "ANDROID_NDK_HOME",
      .err "Error: Please set ANDROID_NDK_HOME environment variable"], false)
  | some p =>
    if p.isEmpty then
      ([.envCheck "ANDROID_NDK_HOME",
        .err "Error: Please set ANDROID_NDK_HOME environment variable"], false)
    else if pathExists p then
      ([.envCheck "ANDROID_NDK_HOME"], true)
    else
      ([.envCheck "ANDROID_NDK_HOME",
        .err "Error: ANDROID_NDK_HOME path does not exist"], false)

/-- `check_qnx_prerequisites()`: requires `QNX_SDP_HOME` to be set, non-empty
and an existing path. -/
def check_qnx_prerequisites (sdp : Option String)
    (pathExists : String → Bool) : List Event × Bool :=
  match sdp with
  | none =>
    ([.envCheck "QNX_SDP_HOME",
      .err "Error: Please set QNX_SDP_HOME environment variable"], false)
  | some p =>
    if p.isEmpty then
      ([.envCheck "QNX_SDP_HOME",
        .err "Error: Please set QNX_SDP_HOME environment variable"], false)
    else if pathExists p then
      ([.envCheck "QNX_SDP_HOME"], true)
    else
      ([.envCheck "QNX_SDP_HOME",
        .err "Error: QNX_SDP_HOME path does not exist"], false)

/-- `check_prerequisites(target_platform)`: probes `conan --version`, then
`cmake --version`, short-circuiting on the first failure, then runs the
Android/QNX environment-variable check when the target requires it.
`conanProbe`/`cmakeProbe` are the results the OS gives the two probes (the
probe event is recorded even when the executable is missing: the invocation
was attempted). -/
def check_prerequisites (target : Option String)
    (conanProbe cmakeProbe : ProcResult)
    (ndk sdp : Option String) (pathExists : String → Bool) :
    List Event × Bool :=
  let e1 := Event.run ["conan", "--version"] conanProbe
  match conanProbe with
  | .notFound => ([e1, .err "Error: Conan not installed"], false)
  | .exit c1 =>
    if c1 ≠ 0 then
      ([e1, .err "Error: Conan not installed or not in PATH"], false)
    else
      let e2 := Event.run ["cmake", "--version"] cmakeProbe
      match cmakeProbe with
      | .notFound => ([e1, e2, .err "Error: CMake not installed"], false)
      | .exit c2 =>
        if c2 ≠ 0 then
          ([e1, e2, .err "Error: CMake not installed or not in PATH"], false)
        else if target = some "android" then
          let r := check_android_prerequisites ndk pathExists
          ([e1, e2] ++ r.1, r.2)
        else if target = some "qnx" then
          let r := check_qnx_prerequisites sdp pathExists
          ([e1, e2] ++ r.1, r.2)
        else
          ([e1, e2], true)

/-! ## The four platform build functions (build.py lines 131–492)

Each shells out up to three times: `conan install`, `cmake` configure,
`cmake --build`.  `r1 r2 r3` are the exit codes the environment gives those
three commands in the event that they are invoked. -/

/-- `build_for_windows(...)` (lines 131–217). -/
def build_for_windows (conanDir buildType : String) (arch? : Option String)
    (verbose : Bool) (r1 r2 r3 : Int) : List Event × Bool :=
  let arch := archOrDefault arch? "x86_64"
  let vb := if verbose then ["--verbose"] else []
  let cmd1 :=
    ["conan", "install", ".", "--output-folder", conanDir, "--build", "missing",
     "-s", "os=Windows", "-s", "arch=" ++ arch, "-s", "compiler=msvc",
     "-s", "compiler.version=195", "-s", "compiler.cppstd=17"] ++ vb
  let e1 := Event.run cmd1 (.exit r1)
  if r1 ≠ 0 then ([e1, .err "Error: Conan installation failed"], false)
  else
    let cmd2 :=
      ["cmake", "-S", ".", "-B", "build", "-G", "Visual Studio 18 2026",
       "-DCMAKE_TOOLCHAIN_FILE=" ++ conanDir ++
         "/build/generators/conan_toolchain.cmake",
       "-DCMAKE_PREFIX_PATH=" ++ conanDir,
       "-DCMAKE_BUILD_TYPE=" ++ buildType]
      ++ (if arch = "x86" then ["-A", "Win32"]
          else if arch = "x86_64" then ["-A", "x64"]
          else if arch = "armv8" then ["-A", "ARM64"]
          else [])
      ++ vb
    let e2 := Event.run cmd2 (.exit r2)
    if r2 ≠ 0 then ([e1, e2, .err "Error: CMake configuration failed"], false)
    else
      let cmd3 := ["cmake", "--build", "build", "--config", buildType] ++ vb
      let e3 := Event.run cmd3 (.exit r3)
      if r3 ≠ 0 then ([e1, e2, e3, .err "Error: Build failed"], false)
      else ([e1, e2, e3], true)

/-- `build_for_linux(...)` (lines 219–308).  `cpuCount` models
`multiprocessing.cpu_count()`, read for the `-j` flag of the build step. -/
def build_for_linux (conanDir buildType : String) (arch? : Option String)
    (verbose : Bool) (cpuCount : Nat) (r1 r2 r3 : Int) : List Event × Bool :=
  let arch := archOrDefault arch? "x86_64"
  let vb := if verbose then ["--verbose"] else []
  let cmd1 :=
    ["conan", "install", ".", "--output-folder", conanDir, "--build", "missing",
     "-s", "os=Linux", "-s", "arch=" ++ arch, "-s", "compiler=gcc",
     "-s", "compiler.version=11", "-s", "compiler.cppstd=17"] ++ vb
  let e1 := Event.run cmd1 (.exit r1)
  if r1 ≠ 0 then ([e1, .err "Error: Conan installation failed"], false)
  else
    let cmd2 :=
      ["cmake", "-S", ".", "-B", "build",
       "-DCMAKE_BUILD_TYPE=" ++ buildType,
       "-DCMAKE_PREFIX_PATH=" ++ conanDir,
       "-DCMAKE_TOOLCHAIN_FILE=" ++ conanDir ++
         "/build/generators/conan_toolchain.cmake"]
      ++ (if arch ≠ "x86_64" then
            (if arch = "x86" then
               ["-DCMAKE_C_FLAGS=-m32", "-DCMAKE_CXX_FLAGS=-m32"]
             else if arch = "armv7" then
               ["-DCMAKE_TOOLCHAIN_FILE=cmake/arm-linux-gnueabihf.cmake"]
             else if arch = "armv8" then
               ["-DCMAKE_TOOLCHAIN_FILE=cmake/aarch64-linux-gnu.cmake"]
             else [])
          else [])
      ++ vb
    let e2 := Event.run cmd2 (.exit r2)
    if r2 ≠ 0 then ([e1, e2, .err "Error: CMake configuration failed"], false)
    else
      let cmd3 := ["cmake", "--build", "build", "-j", toString cpuCount] ++ vb
      let e3 := Event.run cmd3 (.exit r3)
      if r3 ≠ 0 then ([e1, e2, e3, .err "Error: Build failed"], false)
      else ([e1, e2, e3], true)

/-- The `arch_to_abi` dict of `build_for_android` (lines 335–340). -/
def arch_to_abi (arch : String) : Option String :=
  if arch = "armv7" then some "armeabi-v7a"
  else if arch = "armv8" then some "arm64-v8a"
  else if arch = "x86" then some "x86"
  else if arch = "x86_64" then some "x86_64"
  else none

/-- `build_for_android(...)` (lines 310–410).  Reads `ANDROID_NDK_HOME`
(without re-checking it: an unset variable renders as `"None"` inside the
toolchain path) and creates `build/android` before anything else. -/
def build_for_android (conanDir buildDir buildType : String)
    (arch? : Option String) (ndk : Option String) (verbose : Bool)
    (r1 r2 r3 : Int) : List Event × Bool :=
  let mk := Event.mkdir (buildDir ++ "/android")
  let arch := archOrDefault arch? "armv8"
  match arch_to_abi arch with
  | none =>
    ([mk, .err ("Error: Unsupported Android architecture: " ++ arch)], false)
  | some abi =>
    let vb := if verbose then ["--verbose"] else []
    let cmd1 :=
      ["conan", "install", ".", "--output-folder", conanDir, "--build",
       "missing", "-s", "os=Android", "-s", "arch=" ++ arch,
       "-s", "compiler=clang", "-s", "compiler.version=12",
       "-s", "compiler.cppstd=17"] ++ vb
    let e1 := Event.run cmd1 (.exit r1)
    if r1 ≠ 0 then ([mk, e1, .err "Error: Conan installation failed"], false)
    else
      let cmd2 :=
        ["cmake", "-S", ".", "-B", "build/android",
         "-DCMAKE_TOOLCHAIN_FILE=" ++ pyStr ndk ++
           "/build/cmake/android.toolchain.cmake",
         "-DANDROID_ABI=" ++ abi,
         "-DANDROID_PLATFORM=android-24",
         "-DCMAKE_BUILD_TYPE=" ++ buildType,
         "-DHUD_ENGINE_PLATFORM_ANDROID=ON",
         "-DHUD_ENGINE_USE_EGL=ON",
         "-DCMAKE_PREFIX_PATH=" ++ conanDir,
         "-DCMAKE_TOOLCHAIN_FILE=" ++ conanDir ++
           "/build/generators/conan_toolchain.cmake"]
        ++ vb
      let e2 := Event.run cmd2 (.exit r2)
      if r2 ≠ 0 then
        ([mk, e1, e2, .err "Error: Android CMake configuration failed"], false)
      else
        let cmd3 := ["cmake", "--build", "build/android", "-j", "4"] ++ vb
        let e3 := Event.run cmd3 (.exit r3)
        if r3 ≠ 0 then
          ([mk, e1, e2, e3, .err "Error: Android build failed"], false)
        else ([mk, e1, e2, e3], true)

/-- `build_for_qnx(...)` (lines 412–492).  Reads `QNX_SDP_HOME` (an unset
variable renders as `"None"`) and creates `build/qnx` first; an architecture
outside the `if/elif` chain simply adds no `QNX_TARGET_CPU` flag. -/
def build_for_qnx (conanDir buildDir buildType : String)
    (arch? : Option String) (sdp : Option String) (verbose : Bool)
    (r1 r2 r3 : Int) : List Event × Bool :=
  let mk := Event.mkdir (buildDir ++ "/qnx")
  let arch := archOrDefault arch? "armv7"
  let vb := if verbose then ["--verbose"] else []
  let cmd1 :=
    ["conan", "install", ".", "--output-folder", conanDir, "--build", "missing",
     "-s", "os=Neutrino", "-s", "arch=" ++ arch, "-s", "compiler=qcc",
     "-s", "compiler.version=5.4", "-s", "compiler.cppstd=17"] ++ vb
  let e1 := Event.run cmd1 (.exit r1)
  if r1 ≠ 0 then ([mk, e1, .err "Error: Conan installation failed"], false)
  else
    let cmd2 :=
      ["cmake", "-S", ".", "-B", "build/qnx",
       "-DCMAKE_TOOLCHAIN_FILE=" ++ pyStr sdp ++ "/qnx710/cmake/toolchain.cmake",
       "-DCMAKE_BUILD_TYPE=" ++ buildType,
       "-DHUD_ENGINE_PLATFORM_QNX=ON",
       "-DHUD_ENGINE_USE_EGL=ON",
       "-DCMAKE_PREFIX_PATH=" ++ conanDir,
       "-DCMAKE_TOOLCHAIN_FILE=" ++ conanDir ++
         "/build/generators/conan_toolchain.cmake"]
      ++ (if arch = "x86" then ["-DQNX_TARGET_CPU=x86"]
          else if arch = "armv7" then ["-DQNX_TARGET_CPU=armv7"]
          else if arch = "armv8" then ["-DQNX_TARGET_CPU=aarch64le"]
          else [])
      ++ vb
    let e2 := Event.run cmd2 (.exit r2)
    if r2 ≠ 0 then
      ([mk, e1, e2, .err "Error: QNX CMake configuration failed"], false)
    else
      let cmd3 := ["cmake", "--build", "build/qnx", "-j", "4"] ++ vb
      let e3 := Event.run cmd3 (.exit r3)
      if r3 ≠ 0 then
        ([mk, e1, e2, e3, .err "Error: QNX build failed"], false)
      else ([mk, e1, e2, e3], true)

/-! ## `build_project` and `main` (build.py lines 494–622) -/

/-- The default-architecture table of `build_project` (lines 516–524): an
unrecognised platform leaves the architecture unset. -/
def default_arch : String → Option String
  | "windows" => some "x86_64"
  | "linux" => some "x86_64"
  | "android" => some "armv8"
  | "qnx" => some "armv7"
  | _ => none

/-- Lines 513–514: `if not target_platform: target_platform =
detect_platform()`. -/
def resolve_platform (targetPlatform? : Option String) (hostSystem : String) :
    String :=
  match targetPlatform? with
  | none => detect_platform hostSystem
  | some p => if p.isEmpty then detect_platform hostSystem else p

/-- Lines 516–524: `if not arch:` followed by the per-platform default. -/
def resolve_arch (arch? : Option String) (tp : String) : Option String :=
  match arch? with
  | none => default_arch tp
  | some a => if a.isEmpty then default_arch tp else some a

/-- `build_project(...)` (lines 494–575).  `projectRoot` is
`Path(__file__).parent.absolute()`; `hostSystem` is `platform.system()`;
`buildDirExists`/`conanDirExists` say whether `build`/`conan` already exist
when `--clean` asks to remove them. -/
def build_project (projectRoot : String) (targetPlatform? arch? : Option String)
    (clean verbose : Bool) (buildType : String) (hostSystem : String)
    (ndk sdp : Option String) (buildDirExists conanDirExists : Bool)
    (cpuCount : Nat) (r1 r2 r3 : Int) : List Event × Bool :=
  let buildDir := projectRoot ++ "/build"
  let conanDir := projectRoot ++ "/conan"
  let tp := resolve_platform targetPlatform? hostSystem
  let arch := resolve_arch arch? tp
  let cleanEvents :=
    if clean then
      (if buildDirExists then [Event.rmtree buildDir] else []) ++
      (if conanDirExists then [Event.rmtree conanDir] else [])
    else []
  let pre := cleanEvents ++ [Event.mkdir buildDir, Event.mkdir conanDir]
  if tp = "windows" then
    let r := build_for_windows conanDir buildType arch verbose r1 r2 r3
    (pre ++ r.1, r.2)
  else if tp = "linux" then
    let r := build_for_linux conanDir buildType arch verbose cpuCount r1 r2 r3
    (pre ++ r.1, r.2)
  else if tp = "android" then
    let r := build_for_android conanDir buildDir buildType arch ndk verbose
      r1 r2 r3
    (pre ++ r.1, r.2)
  else if tp = "qnx" then
    let r := build_for_qnx conanDir buildDir buildType arch sdp verbose
      r1 r2 r3
    (pre ++ r.1, r.2)
  else
    (pre ++ [.err ("Error: Unsupported platform: " ++ tp)], false)

/-- The parsed command-line arguments (`argparse`, lines 586–609).  `platform`
and `arch` are `None` when omitted; `buildType` defaults to `"Release"`. -/
structure Args where
  platform : Option String
  arch : Option String
  buildType : String
  verbose : Bool
  clean : Bool
deriving Repr

/-- The values `argparse` accepts for each option (its `choices=` lists). -/
def validArgs (a : Args) : Bool :=
  (match a.platform with
   | none => true
   | some p => ["windows", "linux", "android", "qnx"].contains p) &&
  (match a.arch with
   | none => true
   | some x => ["x86", "x86_64", "armv7", "armv8"].contains x) &&
  ["Debug", "Release", "RelWithDebInfo"].contains a.buildType

/-- Everything the script observes about the machine it runs on. -/
structure World where
  /-- `Path(__file__).parent.absolute()` as a string. -/
  projectRoot : String
  /-- `platform.system()`. -/
  hostSystem : String
  /-- Result of the `conan --version` probe, should it be attempted. -/
  conanProbe : ProcResult
  /-- Result of the `cmake --version` probe, should it be attempted. -/
  cmakeProbe : ProcResult
  /-- `os.environ.get("ANDROID_NDK_HOME")`. -/
  androidNdkHome : Option String
  /-- `os.environ.get("QNX_SDP_HOME")`. -/
  qnxSdpHome : Option String
  /-- `os.path.exists`. -/
  pathExists : String → Bool
  /-- Whether `<projectRoot>/build` exists before the run. -/
  buildDirExists : Bool
  /-- Whether `<projectRoot>/conan` exists before the run. -/
  conanDirExists : Bool
  /-- `multiprocessing.cpu_count()`. -/
  cpuCount : Nat
  /-- Exit code of the dependency-install command, should it be invoked. -/
  r1 : Int
  /-- Exit code of the configure command, should it be invoked. -/
  r2 : Int
  /-- Exit code of the build command, should it be invoked. -/
  r3 : Int

/-- `main()` (lines 577–622), after argument parsing: check prerequisites and
`sys.exit(1)` on failure, otherwise run `build_project` and exit 0 exactly
when it returns `True`. -/
def main (a : Args) (w : World) : List Event × Nat :=
  let pre := check_prerequisites a.platform w.conanProbe w.cmakeProbe
    w.androidNdkHome w.qnxSdpHome w.pathExists
  if pre.2 then
    let b := build_project w.projectRoot a.platform a.arch a.clean a.verbose
      a.buildType w.hostSystem w.androidNdkHome w.qnxSdpHome
      w.buildDirExists w.conanDirExists w.cpuCount w.r1 w.r2 w.r3
    (pre.1 ++ b.1, if b.2 then 0 else 1)
  else
    (pre.1, 1)

/-! ## The command-line surface (build.py lines 586–607) -/

/-- One `parser.add_argument(...)` call: its flag strings, its `choices` list
(empty when unconstrained), whether it is a `store_true` switch, and its
declared default value. -/
structure CliOption where
  flags : List String
  choices : List String
  storeTrue : Bool
  dflt : Option String
deriving DecidableEq, Repr

/-- The five `add_argument` calls of `main`, in source order. -/
def cliOptions : List CliOption :=
  [⟨["--platform"], ["windows", "linux", "android", "qnx"], false, none⟩,
   ⟨["--arch"], ["x86", "x86_64", "armv7", "armv8"], false, none⟩,
   ⟨["--build-type"], ["Debug", "Release", "RelWithDebInfo"], false,
     some "Release"⟩,
   ⟨["--verbose", "-v"], [], true, none⟩,
   ⟨["--clean"], [], true, none⟩]

/-! ## The spec's "fixed table" of command lines

`commandTable` follows the spec's words: "given inputs (platform, arch,
build-type), the exact external command lines produced match a fixed table".
The table cannot be keyed by the triple alone (see `C1_counterexample`), so it
is additionally keyed by the inputs the script actually reads: the verbose
flag, the Conan output directory, the host CPU count (Linux), and the
`ANDROID_NDK_HOME` / `QNX_SDP_HOME` environment variables (Android/QNX). -/

/-- The table of the three command lines (dependency install, configure,
build) each accepted platform produces when every command succeeds. -/
def commandTable (tp conanDir buildType : String) (arch? : Option String)
    (verbose : Bool) (cpuCount : Nat) (ndk sdp : Option String) :
    List (List String) :=
  let vb := if verbose then ["--verbose"] else []
  if tp = "windows" then
    let arch := archOrDefault arch? "x86_64"
    [["conan", "install", ".", "--output-folder", conanDir, "--build",
      "missing", "-s", "os=Windows", "-s", "arch=" ++ arch,
      "-s", "compiler=msvc", "-s", "compiler.version=195",
      "-s", "compiler.cppstd=17"] ++ vb,
     ["cmake", "-S", ".", "-B", "build", "-G", "Visual Studio 18 2026",
      "-DCMAKE_TOOLCHAIN_FILE=" ++ conanDir ++
        "/build/generators/conan_toolchain.cmake",
      "-DCMAKE_PREFIX_PATH=" ++ conanDir,
      "-DCMAKE_BUILD_TYPE=" ++ buildType]
     ++ (if arch = "x86" then ["-A", "Win32"]
         else if arch = "x86_64" then ["-A", "x64"]
         else if arch = "armv8" then ["-A", "ARM64"]
         else [])
     ++ vb,
     ["cmake", "--build", "build", "--config", buildType] ++ vb]
  else if tp = "linux" then
    let arch := archOrDefault arch? "x86_64"
    [["conan", "install", ".", "--output-folder", conanDir, "--build",
      "missing", "-s", "os=Linux", "-s", "arch=" ++ arch,
      "-s", "compiler=gcc", "-s", "compiler.version=11",
      "-s", "compiler.cppstd=17"] ++ vb,
     ["cmake", "-S", ".", "-B", "build",
      "-DCMAKE_BUILD_TYPE=" ++ buildType,
      "-DCMAKE_PREFIX_PATH=" ++ conanDir,
      "-DCMAKE_TOOLCHAIN_FILE=" ++ conanDir ++
        "/build/generators/conan_toolchain.cmake"]
     ++ (if arch ≠ "x86_64" then
           (if arch = "x86" then
              ["-DCMAKE_C_FLAGS=-m32", "-DCMAKE_CXX_FLAGS=-m32"]
            else if arch = "armv7" then
              ["-DCMAKE_TOOLCHAIN_FILE=cmake/arm-linux-gnueabihf.cmake"]
            else if arch = "armv8" then
              ["-DCMAKE_TOOLCHAIN_FILE=cmake/aarch64-linux-gnu.cmake"]
            else [])
         else [])
     ++ vb,
     ["cmake", "--build", "build", "-j", toString cpuCount] ++ vb]
  else if tp = "android" then
    let arch := archOrDefault arch? "armv8"
    match arch_to_abi arch with
    | none => []
    | some abi =>
      [["conan", "install", ".", "--output-folder", conanDir, "--build",
        "missing", "-s", "os=Android", "-s", "arch=" ++ arch,
        "-s", "compiler=clang", "-s", "compiler.version=12",
        "-s", "compiler.cppstd=17"] ++ vb,
       ["cmake", "-S", ".", "-B", "build/android",
        "-DCMAKE_TOOLCHAIN_FILE=" ++ pyStr ndk ++
          "/build/cmake/android.toolchain.cmake",
        "-DANDROID_ABI=" ++ abi,
        "-DANDROID_PLATFORM=android-24",
        "-DCMAKE_BUILD_TYPE=" ++ buildType,
        "-DHUD_ENGINE_PLATFORM_ANDROID=ON",
        "-DHUD_ENGINE_USE_EGL=ON",
        "-DCMAKE_PREFIX_PATH=" ++ conanDir,
        "-DCMAKE_TOOLCHAIN_FILE=" ++ conanDir ++
          "/build/generators/conan_toolchain.cmake"]
       ++ vb,
       ["cmake", "--build", "build/android", "-j", "4"] ++ vb]
  else if tp = "qnx" then
    let arch := archOrDefault arch? "armv7"
    [["conan", "install", ".", "--output-folder", conanDir, "--build",
      "missing", "-s", "os=Neutrino", "-s", "arch=" ++ arch,
      "-s", "compiler=qcc", "-s", "compiler.version=5.4",
      "-s", "compiler.cppstd=17"] ++ vb,
     ["cmake", "-S", ".", "-B", "build/qnx",
      "-DCMAKE_TOOLCHAIN_FILE=" ++ pyStr sdp ++ "/qnx710/cmake/toolchain.cmake",
      "-DCMAKE_BUILD_TYPE=" ++ buildType,
      "-DHUD_ENGINE_PLATFORM_QNX=ON",
      "-DHUD_ENGINE_USE_EGL=ON",
      "-DCMAKE_PREFIX_PATH=" ++ conanDir,
      "-DCMAKE_TOOLCHAIN_FILE=" ++ conanDir ++
        "/build/generators/conan_toolchain.cmake"]
     ++ (if arch = "x86" then ["-DQNX_TARGET_CPU=x86"]
         else if arch = "armv7" then ["-DQNX_TARGET_CPU=armv7"]
         else if arch = "armv8" then ["-DQNX_TARGET_CPU=aarch64le"]
         else [])
     ++ vb,
     ["cmake", "--build", "build/qnx", "-j", "4"] ++ vb]
  else []

/-! ## Concrete fixtures for witnesses and counterexamples -/

/-- A benign machine: both probes succeed, both SDK variables are set to
existing paths, no directory exists yet, 4 CPUs, every command exits 0. -/
def exWorld : World where
  projectRoot := "/proj"
  hostSystem := "Linux"
  conanProbe := .exit 0
  cmakeProbe := .exit 0
  androidNdkHome := some "/opt/ndk"
  qnxSdpHome := some "/opt/qnx"
  pathExists := fun _ => true
  buildDirExists := false
  conanDirExists := false
  cpuCount := 4
  r1 := 0
  r2 := 0
  r3 := 0

/-- An explicit Linux x86_64 Release invocation. -/
def exArgsLinux : Args := ⟨some "linux", some "x86_64", "Release", false, false⟩

/-- A run with every option omitted (all argparse defaults). -/
def exArgsAuto : Args := ⟨none, none, "Release", false, false⟩

/-- `exWorld` on a macOS host. -/
def exWorldMac : World := { exWorld with hostSystem := "Darwin" }

/-! ## Error taxonomy

The exact `Error:` strings `build.py` can print, grouped as the spec groups
failures. -/

/-- The "prerequisite missing" error messages (lines 55, 59, 76, 80, 102,
106, 113, 117). -/
def prereqErrorMsgs : List String :=
  ["Error: Conan not installed",
   "Error: Conan not installed or not in PATH",
   "Error: CMake not installed",
   "Error: CMake not installed or not in PATH",
   "Error: Please set ANDROID_NDK_HOME environment variable",
   "Error: ANDROID_NDK_HOME path does not exist",
   "Error: Please set QNX_SDP_HOME environment variable",
   "Error: QNX_SDP_HOME path does not exist"]

/-- The "subprocess returned non-zero" error messages (lines 176, 204, 214,
264, 293, 305, 373, 397, 407, 448, 479, 489). -/
def subprocessErrorMsgs : List String :=
  ["Error: Conan installation failed",
   "Error: CMake configuration failed",
   "Error: Build failed",
   "Error: Android CMake configuration failed",
   "Error: Android build failed",
   "Error: QNX CMake configuration failed",
   "Error: QNX build failed"]

/-! # Theorems -/

/-- C4 (amended): `detect_platform` maps every host operating-system
identifier into the four-value set {"windows", "linux", "macos", "unknown"};
"macos" and "unknown" are not build targets, so detection can land outside
the four enumerated targets. -/
theorem C4_detect_platform_range (s : String) :
    detect_platform s ∈ (["windows", "linux", "macos", "unknown"] : List String) := by
  unfold detect_platform
  by_cases h1 : strLower s = "windows" <;>
    by_cases h2 : strLower s = "linux" <;>
      by_cases h3 : strLower s = "darwin" <;>
        simp [h1, h2, h3]

/-- C4 counterexample: on a Darwin host, `detect_platform` returns `"macos"`,
which is not one of the four enumerated build targets, refuting the claim
that every host maps to one of them. -/
theorem C4_counterexample :
    detect_platform "Darwin" = "macos" ∧
      "macos" ∉ (["windows", "linux", "android", "qnx"] : List String) := by
  decide

/-- C2 counterexample: on an all-success run, `build_for_windows` issues
three external commands, not two as the claim states. -/
theorem C2_counterexample :
    (runCmds (build_for_windows "/proj/conan" "Release" (some "x86_64")
        false 0 0 0).1).length = 3 ∧
    (runCmds (build_for_windows "/proj/conan" "Release" (some "x86_64")
        false 0 0 0).1).length ≠ 2 := by
  decide

/-- C2 (amended): on an all-success run each target-specific build function
issues exactly three external commands — a `conan install`, a `cmake`
configure, then a `cmake --build` — in that order (Android requires its
architecture to be in the ABI table). -/
theorem C2_three_commands (cd bd bt : String) (a? : Option String) (v : Bool)
    (cpu : Nat) (ndk sdp : Option String)
    (habi : (arch_to_abi (archOrDefault a? "armv8")).isSome = true) :
    ((runCmds (build_for_windows cd bt a? v 0 0 0).1).map (fun c => c.take 2) =
      [["conan", "install"], ["cmake", "-S"], ["cmake", "--build"]]) ∧
    ((runCmds (build_for_linux cd bt a? v cpu 0 0 0).1).map (fun c => c.take 2) =
      [["conan", "install"], ["cmake", "-S"], ["cmake", "--build"]]) ∧
    ((runCmds (build_for_android cd bd bt a? ndk v 0 0 0).1).map
        (fun c => c.take 2) =
      [["conan", "install"], ["cmake", "-S"], ["cmake", "--build"]]) ∧
    ((runCmds (build_for_qnx cd bd bt a? sdp v 0 0 0).1).map
        (fun c => c.take 2) =
      [["conan", "install"], ["cmake", "-S"], ["cmake", "--build"]]) := by
  obtain ⟨abi, habi'⟩ := Option.isSome_iff_exists.mp habi
  refine ⟨rfl, rfl, ?_, rfl⟩
  simp [build_for_android, habi', runCmds]

/-- Witness for C2: the Android conjunct at a concrete supported input. -/
theorem C2_three_commands_witness :
    (runCmds (build_for_android "/c" "/b" "Release" (some "armv8")
        (some "/opt/ndk") false 0 0 0).1).map (fun c => c.take 2) =
      [["conan", "install"], ["cmake", "-S"], ["cmake", "--build"]] :=
  (C2_three_commands "/c" "/b" "Release" (some "armv8") false 4
    (some "/opt/ndk") none (by decide)).2.2.1

/-- C1 counterexample: two runs of the script with the same accepted triple
(linux, x86_64, Release) and the same arguments, on hosts differing only in
CPU count, produce different external-command sequences — the sequence is not
a function of the triple alone. -/
theorem C1_counterexample :
    validArgs exArgsLinux = true ∧
    runCmds (main exArgsLinux exWorld).1 ≠
      runCmds (main exArgsLinux { exWorld with cpuCount := 8 }).1 := by
  decide

/-- C1 (amended): the external command lines are given by the fixed table
`commandTable`, keyed by (platform, arch, build-type) together with the
further inputs the script reads: the verbose flag, the Conan output
directory, the host CPU count (Linux), and the `ANDROID_NDK_HOME` /
`QNX_SDP_HOME` environment variables (Android / QNX). -/
theorem C1_commands_match_table (cd bd bt : String) (a? : Option String)
    (v : Bool) (cpu : Nat) (ndk sdp : Option String) :
    runCmds (build_for_windows cd bt a? v 0 0 0).1 =
      commandTable "windows" cd bt a? v cpu ndk sdp ∧
    runCmds (build_for_linux cd bt a? v cpu 0 0 0).1 =
      commandTable "linux" cd bt a? v cpu ndk sdp ∧
    runCmds (build_for_android cd bd bt a? ndk v 0 0 0).1 =
      commandTable "android" cd bt a? v cpu ndk sdp ∧
    runCmds (build_for_qnx cd bd bt a? sdp v 0 0 0).1 =
      commandTable "qnx" cd bt a? v cpu ndk sdp := by
  refine ⟨rfl, rfl, ?_, rfl⟩
  rcases habi : arch_to_abi (archOrDefault a? "armv8") with _ | abi <;>
    simp [build_for_android, commandTable, habi, runCmds]

/-- C9: with no `--arch`, the orchestrator picks x86_64 for windows and
linux, armv8 for android, armv7 for qnx; running with the architecture
omitted is identical (same events, same result) to running with the default
spelled out, both at the orchestrator and inside each platform build
function — so every downstream command line uses the default. -/
theorem C9_default_architectures :
    default_arch "windows" = some "x86_64" ∧
    default_arch "linux" = some "x86_64" ∧
    default_arch "android" = some "armv8" ∧
    default_arch "qnx" = some "armv7" ∧
    (∀ pr (c v : Bool) bt hs ndk sdp (bde cde : Bool) (cpu : Nat)
        (r1 r2 r3 : Int),
      (build_project pr (some "windows") none c v bt hs ndk sdp bde cde cpu
          r1 r2 r3 =
        build_project pr (some "windows") (some "x86_64") c v bt hs ndk sdp
          bde cde cpu r1 r2 r3) ∧
      (build_project pr (some "linux") none c v bt hs ndk sdp bde cde cpu
          r1 r2 r3 =
        build_project pr (some "linux") (some "x86_64") c v bt hs ndk sdp
          bde cde cpu r1 r2 r3) ∧
      (build_project pr (some "android") none c v bt hs ndk sdp bde cde cpu
          r1 r2 r3 =
        build_project pr (some "android") (some "armv8") c v bt hs ndk sdp
          bde cde cpu r1 r2 r3) ∧
      (build_project pr (some "qnx") none c v bt hs ndk sdp bde cde cpu
          r1 r2 r3 =
        build_project pr (some "qnx") (some "armv7") c v bt hs ndk sdp
          bde cde cpu r1 r2 r3)) ∧
    (∀ cd bt (v : Bool) (r1 r2 r3 : Int),
      build_for_windows cd bt none v r1 r2 r3 =
        build_for_windows cd bt (some "x86_64") v r1 r2 r3) ∧
    (∀ cd bt (v : Bool) (cpu : Nat) (r1 r2 r3 : Int),
      build_for_linux cd bt none v cpu r1 r2 r3 =
        build_for_linux cd bt (some "x86_64") v cpu r1 r2 r3) ∧
    (∀ cd bd bt ndk (v : Bool) (r1 r2 r3 : Int),
      build_for_android cd bd bt none ndk v r1 r2 r3 =
        build_for_android cd bd bt (some "armv8") ndk v r1 r2 r3) ∧
    (∀ cd bd bt sdp (v : Bool) (r1 r2 r3 : Int),
      build_for_qnx cd bd bt none sdp v r1 r2 r3 =
        build_for_qnx cd bd bt (some "armv7") sdp v r1 r2 r3) :=
  ⟨rfl, rfl, rfl, rfl,
   fun _ _ _ _ _ _ _ _ _ _ _ _ _ => ⟨rfl, rfl, rfl, rfl⟩,
   fun _ _ _ _ _ _ => rfl,
   fun _ _ _ _ _ _ _ => rfl,
   fun _ _ _ _ _ _ _ _ => rfl,
   fun _ _ _ _ _ _ _ _ => rfl⟩

/-- C10: inside every platform build function the three external commands
short-circuit: a non-zero dependency install leaves exactly one attempted
command and returns `False`; a zero install followed by a non-zero configure
leaves exactly two attempted commands and returns `False` (Android requires a
supported architecture for any command to be attempted at all). -/
theorem C10_short_circuit (cd bd bt : String) (a? : Option String) (v : Bool)
    (cpu : Nat) (ndk sdp : Option String) (r1 r2 r3 : Int) :
    (r1 ≠ 0 →
      ((runCmds (build_for_windows cd bt a? v r1 r2 r3).1).length = 1 ∧
        (build_for_windows cd bt a? v r1 r2 r3).2 = false) ∧
      ((runCmds (build_for_linux cd bt a? v cpu r1 r2 r3).1).length = 1 ∧
        (build_for_linux cd bt a? v cpu r1 r2 r3).2 = false) ∧
      ((arch_to_abi (archOrDefault a? "armv8")).isSome = true →
        (runCmds (build_for_android cd bd bt a? ndk v r1 r2 r3).1).length = 1 ∧
        (build_for_android cd bd bt a? ndk v r1 r2 r3).2 = false) ∧
      ((runCmds (build_for_qnx cd bd bt a? sdp v r1 r2 r3).1).length = 1 ∧
        (build_for_qnx cd bd bt a? sdp v r1 r2 r3).2 = false)) ∧
    (r1 = 0 → r2 ≠ 0 →
      ((runCmds (build_for_windows cd bt a? v r1 r2 r3).1).length = 2 ∧
        (build_for_windows cd bt a? v r1 r2 r3).2 = false) ∧
      ((runCmds (build_for_linux cd bt a? v cpu r1 r2 r3).1).length = 2 ∧
        (build_for_linux cd bt a? v cpu r1 r2 r3).2 = false) ∧
      ((arch_to_abi (archOrDefault a? "armv8")).isSome = true →
        (runCmds (build_for_android cd bd bt a? ndk v r1 r2 r3).1).length = 2 ∧
        (build_for_android cd bd bt a? ndk v r1 r2 r3).2 = false) ∧
      ((runCmds (build_for_qnx cd bd bt a? sdp v r1 r2 r3).1).length = 2 ∧
        (build_for_qnx cd bd bt a? sdp v r1 r2 r3).2 = false)) := by
  constructor
  · intro h1
    refine ⟨?_, ?_, ?_, ?_⟩
    · simp [build_for_windows, runCmds, h1]
    · simp [build_for_linux, runCmds, h1]
    · intro habi
      obtain ⟨abi, habi'⟩ := Option.isSome_iff_exists.mp habi
      simp [build_for_android, runCmds, habi', h1]
    · simp [build_for_qnx, runCmds, h1]
  · intro h1 h2
    subst h1
    refine ⟨?_, ?_, ?_, ?_⟩
    · simp [build_for_windows, runCmds, h2]
    · simp [build_for_linux, runCmds, h2]
    · intro habi
      obtain ⟨abi, habi'⟩ := Option.isSome_iff_exists.mp habi
      simp [build_for_android, runCmds, habi', h2]
    · simp [build_for_qnx, runCmds, h2]

/-- Witness for C10: a failing install stops `build_for_windows` after one
command; a failing configure stops `build_for_linux` after two. -/
theorem C10_short_circuit_witness :
    ((runCmds (build_for_windows "/c" "Release" (some "x86_64") false
        1 0 0).1).length = 1 ∧
      (build_for_windows "/c" "Release" (some "x86_64") false 1 0 0).2 =
        false) ∧
    ((runCmds (build_for_linux "/c" "Release" (some "x86_64") false 4
        0 1 0).1).length = 2 ∧
      (build_for_linux "/c" "Release" (some "x86_64") false 4 0 1 0).2 =
        false) :=
  ⟨((C10_short_circuit "/c" "/b" "Release" (some "x86_64") false 4 none none
      1 0 0).1 (by decide)).1,
   ((C10_short_circuit "/c" "/b" "Release" (some "x86_64") false 4 none none
      0 1 0).2 rfl (by decide)).2.1⟩

/-! ## Helper lemmas (shared) -/

/-- `runCmds` distributes over trace concatenation. -/
theorem runCmds_append (a b : List Event) :
    runCmds (a ++ b) = runCmds a ++ runCmds b := by
  induction a with
  | nil => rfl
  | cons e es ih => cases e <;> simp [runCmds, ih]

/-- `errMsgs` distributes over trace concatenation. -/
theorem errMsgs_append (a b : List Event) :
    errMsgs (a ++ b) = errMsgs a ++ errMsgs b := by
  induction a with
  | nil => rfl
  | cons e es ih => cases e <;> simp [errMsgs, ih]

/-- `mkdirPaths` distributes over trace concatenation. -/
theorem mkdirPaths_append (a b : List Event) :
    mkdirPaths (a ++ b) = mkdirPaths a ++ mkdirPaths b := by
  induction a with
  | nil => rfl
  | cons e es ih => cases e <;> simp [mkdirPaths, ih]

/-- `rmtreePaths` distributes over trace concatenation. -/
theorem rmtreePaths_append (a b : List Event) :
    rmtreePaths (a ++ b) = rmtreePaths a ++ rmtreePaths b := by
  induction a with
  | nil => rfl
  | cons e es ih => cases e <;> simp [rmtreePaths, ih]

/-- `checkedEnv` over a concatenation is the disjunction. -/
theorem checkedEnv_append (v : String) (a b : List Event) :
    checkedEnv v (a ++ b) = (checkedEnv v a || checkedEnv v b) := by
  induction a with
  | nil => rfl
  | cons e es ih => cases e <;> simp [checkedEnv, ih, Bool.or_assoc]

/-- `hasFailedRun` over a concatenation is the disjunction. -/
theorem hasFailedRun_append (a b : List Event) :
    hasFailedRun (a ++ b) = (hasFailedRun a || hasFailedRun b) := by
  induction a with
  | nil => rfl
  | cons e es ih =>
    cases e with
    | run c r => cases r <;> simp [hasFailedRun, ih, Bool.or_assoc]
    | mkdir p => simp [hasFailedRun, ih]
    | rmtree p => simp [hasFailedRun, ih]
    | envCheck v => simp [hasFailedRun, ih]
    | err m => simp [hasFailedRun, ih]

/-- Everything later proofs need about `check_android_prerequisites`: it runs
no subprocess, touches no directory, always checks `ANDROID_NDK_HOME` and
never `QNX_SDP_HOME`, succeeds exactly when the variable is set, non-empty
and an existing path, errs exactly when it fails, and only with
prerequisite-style messages. -/
theorem android_check_facts (ndk : Option String) (pe : String → Bool) :
    runCmds (check_android_prerequisites ndk pe).1 = [] ∧
    checkedEnv "ANDROID_NDK_HOME" (check_android_prerequisites ndk pe).1 =
      true ∧
    checkedEnv "QNX_SDP_HOME" (check_android_prerequisites ndk pe).1 =
      false ∧
    ((check_android_prerequisites ndk pe).2 = true ↔
      ∃ p, ndk = some p ∧ p.isEmpty = false ∧ pe p = true) ∧
    ((check_android_prerequisites ndk pe).2 = true ↔
      errMsgs (check_android_prerequisites ndk pe).1 = []) ∧
    (∀ m ∈ errMsgs (check_android_prerequisites ndk pe).1,
      m ∈ prereqErrorMsgs) ∧
    mkdirPaths (check_android_prerequisites ndk pe).1 = [] ∧
    rmtreePaths (check_android_prerequisites ndk pe).1 = [] ∧
    hasFailedRun (check_android_prerequisites ndk pe).1 = false := by
  rcases ndk with _ | p
  · simp [check_android_prerequisites, runCmds, checkedEnv, errMsgs,
      mkdirPaths, rmtreePaths, hasFailedRun, prereqErrorMsgs]
  · by_cases hp : p.isEmpty <;> by_cases he : pe p <;>
      simp [check_android_prerequisites, runCmds, checkedEnv, errMsgs,
        mkdirPaths, rmtreePaths, hasFailedRun, prereqErrorMsgs, hp, he]

/-- The mirror of `android_check_facts` for `check_qnx_prerequisites`. -/
theorem qnx_check_facts (sdp : Option String) (pe : String → Bool) :
    runCmds (check_qnx_prerequisites sdp pe).1 = [] ∧
    checkedEnv "QNX_SDP_HOME" (check_qnx_prerequisites sdp pe).1 = true ∧
    checkedEnv "ANDROID_NDK_HOME" (check_qnx_prerequisites sdp pe).1 =
      false ∧
    ((check_qnx_prerequisites sdp pe).2 = true ↔
      ∃ p, sdp = some p ∧ p.isEmpty = false ∧ pe p = true) ∧
    ((check_qnx_prerequisites sdp pe).2 = true ↔
      errMsgs (check_qnx_prerequisites sdp pe).1 = []) ∧
    (∀ m ∈ errMsgs (check_qnx_prerequisites sdp pe).1,
      m ∈ prereqErrorMsgs) ∧
    mkdirPaths (check_qnx_prerequisites sdp pe).1 = [] ∧
    rmtreePaths (check_qnx_prerequisites sdp pe).1 = [] ∧
    hasFailedRun (check_qnx_prerequisites sdp pe).1 = false := by
  rcases sdp with _ | p
  · simp [check_qnx_prerequisites, runCmds, checkedEnv, errMsgs,
      mkdirPaths, rmtreePaths, hasFailedRun, prereqErrorMsgs]
  · by_cases hp : p.isEmpty <;> by_cases he : pe p <;>
      simp [check_qnx_prerequisites, runCmds, checkedEnv, errMsgs,
        mkdirPaths, rmtreePaths, hasFailedRun, prereqErrorMsgs, hp, he]

/-- Everything later proofs need about `check_prerequisites`: a failing first
probe stops after one attempted probe; a successful first probe always
attempts exactly the two probes; the SDK variable is checked exactly when
both probes succeed and the target asks for it; under both probes succeeding
the result for android/qnx is the environment-variable verdict; success is
equivalent to printing no error; all errors are prerequisite-style; it
touches no directory; success implies no attempted subprocess failed. -/
theorem prereq_facts (t : Option String) (cp mp : ProcResult)
    (ndk sdp : Option String) (pe : String → Bool) :
    (probeOk cp = false →
      runCmds (check_prerequisites t cp mp ndk sdp pe).1 =
        [["conan", "--version"]] ∧
      (check_prerequisites t cp mp ndk sdp pe).2 = false) ∧
    (probeOk cp = true →
      runCmds (check_prerequisites t cp mp ndk sdp pe).1 =
        [["conan", "--version"], ["cmake", "--version"]]) ∧
    (checkedEnv "ANDROID_NDK_HOME"
        (check_prerequisites t cp mp ndk sdp pe).1 = true ↔
      probeOk cp = true ∧ probeOk mp = true ∧ t = some "android") ∧
    (checkedEnv "QNX_SDP_HOME"
        (check_prerequisites t cp mp ndk sdp pe).1 = true ↔
      probeOk cp = true ∧ probeOk mp = true ∧ t = some "qnx") ∧
    (probeOk cp = true → probeOk mp = true → t = some "android" →
      ((check_prerequisites t cp mp ndk sdp pe).2 = true ↔
        ∃ p, ndk = some p ∧ p.isEmpty = false ∧ pe p = true)) ∧
    (probeOk cp = true → probeOk mp = true → t = some "qnx" →
      ((check_prerequisites t cp mp ndk sdp pe).2 = true ↔
        ∃ p, sdp = some p ∧ p.isEmpty = false ∧ pe p = true)) ∧
    ((check_prerequisites t cp mp ndk sdp pe).2 = true ↔
      errMsgs (check_prerequisites t cp mp ndk sdp pe).1 = []) ∧
    (∀ m ∈ errMsgs (check_prerequisites t cp mp ndk sdp pe).1,
      m ∈ prereqErrorMsgs) ∧
    mkdirPaths (check_prerequisites t cp mp ndk sdp pe).1 = [] ∧
    rmtreePaths (check_prerequisites t cp mp ndk sdp pe).1 = [] ∧
    ((check_prerequisites t cp mp ndk sdp pe).2 = true →
      hasFailedRun (check_prerequisites t cp mp ndk sdp pe).1 = false) := by
  obtain ⟨hA1, hA2, hA3, hA4, hA5, hA6, hA7, hA8, hA9⟩ :=
    android_check_facts ndk pe
  obtain ⟨hQ1, hQ2, hQ3, hQ4, hQ5, hQ6, hQ7, hQ8, hQ9⟩ :=
    qnx_check_facts sdp pe
  rcases cp with _ | c1
  · simp [check_prerequisites, probeOk, runCmds, checkedEnv, errMsgs,
      mkdirPaths, rmtreePaths, hasFailedRun, prereqErrorMsgs]
  · by_cases h1 : c1 = 0
    · subst h1
      rcases mp with _ | c2
      · simp [check_prerequisites, probeOk, runCmds, checkedEnv, errMsgs,
          mkdirPaths, rmtreePaths, hasFailedRun, prereqErrorMsgs]
      · by_cases h2 : c2 = 0
        · subst h2
          by_cases ha : t = some "android"
          · simp [check_prerequisites, probeOk, runCmds, checkedEnv,
              errMsgs, mkdirPaths, rmtreePaths, hasFailedRun, ha,
              runCmds_append, errMsgs_append, mkdirPaths_append,
              rmtreePaths_append, checkedEnv_append, hasFailedRun_append,
              hA1, hA2, hA3, hA4, hA5, hA6, hA7, hA8, hA9]
            exact ⟨hA4.symm.trans hA5, hA6⟩
          · by_cases hq : t = some "qnx"
            · simp [check_prerequisites, probeOk, runCmds, checkedEnv,
                errMsgs, mkdirPaths, rmtreePaths, hasFailedRun, ha, hq,
                runCmds_append, errMsgs_append, mkdirPaths_append,
                rmtreePaths_append, checkedEnv_append, hasFailedRun_append,
                hQ1, hQ2, hQ3, hQ4, hQ5, hQ6, hQ7, hQ8, hQ9]
              exact ⟨hQ4.symm.trans hQ5, hQ6⟩
            · simp [check_prerequisites, probeOk, runCmds, checkedEnv,
                errMsgs, mkdirPaths, rmtreePaths, hasFailedRun, ha, hq]
        · simp [check_prerequisites, probeOk, runCmds, checkedEnv, errMsgs,
            mkdirPaths, rmtreePaths, hasFailedRun, prereqErrorMsgs, h2]
    · simp [check_prerequisites, probeOk, runCmds, checkedEnv, errMsgs,
        mkdirPaths, rmtreePaths, hasFailedRun, prereqErrorMsgs, h1]

/-- Facts about `build_for_windows`: it succeeds exactly when it prints no
error, all its errors are subprocess-failure messages, it touches no
directory, and success means no attempted command failed. -/
theorem bw_facts (cd bt : String) (a? : Option String) (v : Bool)
    (r1 r2 r3 : Int) :
    ((build_for_windows cd bt a? v r1 r2 r3).2 = true ↔
      errMsgs (build_for_windows cd bt a? v r1 r2 r3).1 = []) ∧
    (∀ m ∈ errMsgs (build_for_windows cd bt a? v r1 r2 r3).1,
      m ∈ subprocessErrorMsgs) ∧
    mkdirPaths (build_for_windows cd bt a? v r1 r2 r3).1 = [] ∧
    rmtreePaths (build_for_windows cd bt a? v r1 r2 r3).1 = [] ∧
    ((build_for_windows cd bt a? v r1 r2 r3).2 = true →
      hasFailedRun (build_for_windows cd bt a? v r1 r2 r3).1 = false) := by
  by_cases h1 : r1 = 0 <;> by_cases h2 : r2 = 0 <;> by_cases h3 : r3 = 0 <;>
    simp [build_for_windows, errMsgs, mkdirPaths, rmtreePaths, hasFailedRun,
      subprocessErrorMsgs, h1, h2, h3]

/-- The mirror of `bw_facts` for `build_for_linux`. -/
theorem bl_facts (cd bt : String) (a? : Option String) (v : Bool) (cpu : Nat)
    (r1 r2 r3 : Int) :
    ((build_for_linux cd bt a? v cpu r1 r2 r3).2 = true ↔
      errMsgs (build_for_linux cd bt a? v cpu r1 r2 r3).1 = []) ∧
    (∀ m ∈ errMsgs (build_for_linux cd bt a? v cpu r1 r2 r3).1,
      m ∈ subprocessErrorMsgs) ∧
    mkdirPaths (build_for_linux cd bt a? v cpu r1 r2 r3).1 = [] ∧
    rmtreePaths (build_for_linux cd bt a? v cpu r1 r2 r3).1 = [] ∧
    ((build_for_linux cd bt a? v cpu r1 r2 r3).2 = true →
      hasFailedRun (build_for_linux cd bt a? v cpu r1 r2 r3).1 = false) := by
  by_cases h1 : r1 = 0 <;> by_cases h2 : r2 = 0 <;> by_cases h3 : r3 = 0 <;>
    simp [build_for_linux, errMsgs, mkdirPaths, rmtreePaths, hasFailedRun,
      subprocessErrorMsgs, h1, h2, h3]

/-- Facts about `build_for_android`: as `bw_facts`, except that it may also
print the unsupported-architecture error and it creates exactly the
`build/android` directory. -/
theorem ba_facts (cd bd bt : String) (a? : Option String)
    (ndk : Option String) (v : Bool) (r1 r2 r3 : Int) :
    ((build_for_android cd bd bt a? ndk v r1 r2 r3).2 = true ↔
      errMsgs (build_for_android cd bd bt a? ndk v r1 r2 r3).1 = []) ∧
    (∀ m ∈ errMsgs (build_for_android cd bd bt a? ndk v r1 r2 r3).1,
      m ∈ subprocessErrorMsgs ∨
        ∃ ar, m = "Error: Unsupported Android architecture: " ++ ar) ∧
    mkdirPaths (build_for_android cd bd bt a? ndk v r1 r2 r3).1 =
      [bd ++ "/android"] ∧
    rmtreePaths (build_for_android cd bd bt a? ndk v r1 r2 r3).1 = [] ∧
    ((build_for_android cd bd bt a? ndk v r1 r2 r3).2 = true →
      hasFailedRun (build_for_android cd bd bt a? ndk v r1 r2 r3).1 =
        false) := by
  rcases habi : arch_to_abi (archOrDefault a? "armv8") with _ | abi
  · simp [build_for_android, habi, errMsgs, mkdirPaths, rmtreePaths,
      hasFailedRun, subprocessErrorMsgs]
  · by_cases h1 : r1 = 0 <;> by_cases h2 : r2 = 0 <;> by_cases h3 : r3 = 0 <;>
      simp [build_for_android, habi, errMsgs, mkdirPaths, rmtreePaths,
        hasFailedRun, subprocessErrorMsgs, h1, h2, h3]

/-- The mirror of `bw_facts` for `build_for_qnx`, which creates exactly the
`build/qnx` directory. -/
theorem bq_facts (cd bd bt : String) (a? : Option String)
    (sdp : Option String) (v : Bool) (r1 r2 r3 : Int) :
    ((build_for_qnx cd bd bt a? sdp v r1 r2 r3).2 = true ↔
      errMsgs (build_for_qnx cd bd bt a? sdp v r1 r2 r3).1 = []) ∧
    (∀ m ∈ errMsgs (build_for_qnx cd bd bt a? sdp v r1 r2 r3).1,
      m ∈ subprocessErrorMsgs) ∧
    mkdirPaths (build_for_qnx cd bd bt a? sdp v r1 r2 r3).1 =
      [bd ++ "/qnx"] ∧
    rmtreePaths (build_for_qnx cd bd bt a? sdp v r1 r2 r3).1 = [] ∧
    ((build_for_qnx cd bd bt a? sdp v r1 r2 r3).2 = true →
      hasFailedRun (build_for_qnx cd bd bt a? sdp v r1 r2 r3).1 = false) := by
  by_cases h1 : r1 = 0 <;> by_cases h2 : r2 = 0 <;> by_cases h3 : r3 = 0 <;>
    simp [build_for_qnx, errMsgs, mkdirPaths, rmtreePaths, hasFailedRun,
      subprocessErrorMsgs, h1, h2, h3]

/-- Facts about the `--clean` events of `build_project`: they are `rmtree`s
of the build and Conan directories only, and absent when `--clean` is off. -/
theorem clean_facts (bd cd : String) (c bde cde : Bool) :
    errMsgs (if c then (if bde then [Event.rmtree bd] else []) ++
        (if cde then [Event.rmtree cd] else []) else []) = [] ∧
    runCmds (if c then (if bde then [Event.rmtree bd] else []) ++
        (if cde then [Event.rmtree cd] else []) else []) = [] ∧
    hasFailedRun (if c then (if bde then [Event.rmtree bd] else []) ++
        (if cde then [Event.rmtree cd] else []) else []) = false ∧
    mkdirPaths (if c then (if bde then [Event.rmtree bd] else []) ++
        (if cde then [Event.rmtree cd] else []) else []) = [] ∧
    (∀ q ∈ rmtreePaths (if c then (if bde then [Event.rmtree bd] else []) ++
        (if cde then [Event.rmtree cd] else []) else []), q = bd ∨ q = cd) ∧
    (c = false →
      rmtreePaths (if c then (if bde then [Event.rmtree bd] else []) ++
        (if cde then [Event.rmtree cd] else []) else []) = []) := by
  cases c <;> cases bde <;> cases cde <;>
    simp [errMsgs, runCmds, hasFailedRun, mkdirPaths, rmtreePaths,
      errMsgs_append, runCmds_append, hasFailedRun_append, mkdirPaths_append,
      rmtreePaths_append]

/-- Facts about `build_project`: success is equivalent to printing no error;
every error is a subprocess failure, an unsupported platform, or an
unsupported Android architecture; every created directory is `build`,
`conan`, `build/android` or `build/qnx`; every removed path is `build` or
`conan`, and nothing is removed without `--clean`; success means no attempted
command failed. -/
theorem bp_facts (pr : String) (tp? a? : Option String) (c v : Bool)
    (bt hs : String) (ndk sdp : Option String) (bde cde : Bool) (cpu : Nat)
    (r1 r2 r3 : Int) :
    ((build_project pr tp? a? c v bt hs ndk sdp bde cde cpu r1 r2 r3).2 =
        true ↔
      errMsgs
        (build_project pr tp? a? c v bt hs ndk sdp bde cde cpu r1 r2 r3).1 =
        []) ∧
    (∀ m ∈ errMsgs
        (build_project pr tp? a? c v bt hs ndk sdp bde cde cpu r1 r2 r3).1,
      m ∈ subprocessErrorMsgs ∨
        (∃ p, m = "Error: Unsupported platform: " ++ p) ∨
        (∃ ar, m = "Error: Unsupported Android architecture: " ++ ar)) ∧
    (∀ q ∈ mkdirPaths
        (build_project pr tp? a? c v bt hs ndk sdp bde cde cpu r1 r2 r3).1,
      q = pr ++ "/build" ∨ q = pr ++ "/conan" ∨
        q = pr ++ "/build" ++ "/android" ∨ q = pr ++ "/build" ++ "/qnx") ∧
    (∀ q ∈ rmtreePaths
        (build_project pr tp? a? c v bt hs ndk sdp bde cde cpu r1 r2 r3).1,
      q = pr ++ "/build" ∨ q = pr ++ "/conan") ∧
    (c = false →
      rmtreePaths
        (build_project pr tp? a? c v bt hs ndk sdp bde cde cpu r1 r2 r3).1 =
        []) ∧
    ((build_project pr tp? a? c v bt hs ndk sdp bde cde cpu r1 r2 r3).2 =
        true →
      hasFailedRun
        (build_project pr tp? a? c v bt hs ndk sdp bde cde cpu r1 r2 r3).1 =
        false) := by
  obtain ⟨hc1, hc2, hc3, hc4, hc5, hc6⟩ :=
    clean_facts (pr ++ "/build") (pr ++ "/conan") c bde cde
  by_cases hw : resolve_platform tp? hs = "windows"
  · obtain ⟨w1, w2, w3, w4, w5⟩ :=
      bw_facts (pr ++ "/conan") bt (resolve_arch a? "windows") v r1 r2 r3
    have hbp : build_project pr tp? a? c v bt hs ndk sdp bde cde cpu
        r1 r2 r3 =
        ((if c then (if bde then [Event.rmtree (pr ++ "/build")] else []) ++
            (if cde then [Event.rmtree (pr ++ "/conan")] else []) else []) ++
          [Event.mkdir (pr ++ "/build"), Event.mkdir (pr ++ "/conan")] ++
          (build_for_windows (pr ++ "/conan") bt (resolve_arch a? "windows")
            v r1 r2 r3).1,
         (build_for_windows (pr ++ "/conan") bt (resolve_arch a? "windows")
           v r1 r2 r3).2) := by
      simp [build_project, hw]
    simp only [hbp]
    refine ⟨?_, ?_, ?_, ?_, ?_, ?_⟩
    · simpa [errMsgs_append, hc1, errMsgs] using w1
    · intro m hm
      simp only [errMsgs_append, hc1, errMsgs, List.nil_append] at hm
      exact Or.inl (w2 m hm)
    · intro q hq
      simp [mkdirPaths_append, hc4, w3, mkdirPaths] at hq
      rcases hq with h | h <;> simp [h]
    · intro q hq
      simp only [rmtreePaths_append, w4, rmtreePaths, List.append_nil] at hq
      exact hc5 q hq
    · intro h
      simp [rmtreePaths_append, hc6 h, w4, rmtreePaths]
    · intro h
      simp [hasFailedRun_append, hc3, w5 h, hasFailedRun]
  · by_cases hl : resolve_platform tp? hs = "linux"
    · obtain ⟨l1, l2, l3, l4, l5⟩ :=
        bl_facts (pr ++ "/conan") bt (resolve_arch a? "linux") v cpu r1 r2 r3
      have hbp : build_project pr tp? a? c v bt hs ndk sdp bde cde cpu
          r1 r2 r3 =
          ((if c then
              (if bde then [Event.rmtree (pr ++ "/build")] else []) ++
              (if cde then [Event.rmtree (pr ++ "/conan")] else []) else []) ++
            [Event.mkdir (pr ++ "/build"), Event.mkdir (pr ++ "/conan")] ++
            (build_for_linux (pr ++ "/conan") bt (resolve_arch a? "linux")
              v cpu r1 r2 r3).1,
           (build_for_linux (pr ++ "/conan") bt (resolve_arch a? "linux")
             v cpu r1 r2 r3).2) := by
        simp [build_project, hw, hl]
      simp only [hbp]
      refine ⟨?_, ?_, ?_, ?_, ?_, ?_⟩
      · simpa [errMsgs_append, hc1, errMsgs] using l1
      · intro m hm
        simp only [errMsgs_append, hc1, errMsgs, List.nil_append] at hm
        exact Or.inl (l2 m hm)
      · intro q hq
        simp [mkdirPaths_append, hc4, l3, mkdirPaths] at hq
        rcases hq with h | h <;> simp [h]
      · intro q hq
        simp only [rmtreePaths_append, l4, rmtreePaths, List.append_nil] at hq
        exact hc5 q hq
      · intro h
        simp [rmtreePaths_append, hc6 h, l4, rmtreePaths]
      · intro h
        simp [hasFailedRun_append, hc3, l5 h, hasFailedRun]
    · by_cases han : resolve_platform tp? hs = "android"
      · obtain ⟨a1, a2, a3, a4, a5⟩ :=
          ba_facts (pr ++ "/conan") (pr ++ "/build") bt
            (resolve_arch a? "android") ndk v r1 r2 r3
        have hbp : build_project pr tp? a? c v bt hs ndk sdp bde cde cpu
            r1 r2 r3 =
            ((if c then
                (if bde then [Event.rmtree (pr ++ "/build")] else []) ++
                (if cde then [Event.rmtree (pr ++ "/conan")] else [])
              else []) ++
              [Event.mkdir (pr ++ "/build"), Event.mkdir (pr ++ "/conan")] ++
              (build_for_android (pr ++ "/conan") (pr ++ "/build") bt
                (resolve_arch a? "android") ndk v r1 r2 r3).1,
             (build_for_android (pr ++ "/conan") (pr ++ "/build") bt
               (resolve_arch a? "android") ndk v r1 r2 r3).2) := by
          simp [build_project, hw, hl, han]
        simp only [hbp]
        refine ⟨?_, ?_, ?_, ?_, ?_, ?_⟩
        · simpa [errMsgs_append, hc1, errMsgs] using a1
        · intro m hm
          simp only [errMsgs_append, hc1, errMsgs, List.nil_append] at hm
          rcases a2 m hm with h | h
          · exact Or.inl h
          · exact Or.inr (Or.inr h)
        · intro q hq
          simp [mkdirPaths_append, hc4, a3, mkdirPaths] at hq
          rcases hq with h | h | h <;> simp [h]
        · intro q hq
          simp only [rmtreePaths_append, a4, rmtreePaths,
            List.append_nil] at hq
          exact hc5 q hq
        · intro h
          simp [rmtreePaths_append, hc6 h, a4, rmtreePaths]
        · intro h
          simp [hasFailedRun_append, hc3, a5 h, hasFailedRun]
      · by_cases hqx : resolve_platform tp? hs = "qnx"
        · obtain ⟨q1, q2, q3, q4, q5⟩ :=
            bq_facts (pr ++ "/conan") (pr ++ "/build") bt
              (resolve_arch a? "qnx") sdp v r1 r2 r3
          have hbp : build_project pr tp? a? c v bt hs ndk sdp bde cde cpu
              r1 r2 r3 =
              ((if c then
                  (if bde then [Event.rmtree (pr ++ "/build")] else []) ++
                  (if cde then [Event.rmtree (pr ++ "/conan")] else [])
                else []) ++
                [Event.mkdir (pr ++ "/build"),
                 Event.mkdir (pr ++ "/conan")] ++
                (build_for_qnx (pr ++ "/conan") (pr ++ "/build") bt
                  (resolve_arch a? "qnx") sdp v r1 r2 r3).1,
               (build_for_qnx (pr ++ "/conan") (pr ++ "/build") bt
                 (resolve_arch a? "qnx") sdp v r1 r2 r3).2) := by
            simp [build_project, hw, hl, han, hqx]
          simp only [hbp]
          refine ⟨?_, ?_, ?_, ?_, ?_, ?_⟩
          · simpa [errMsgs_append, hc1, errMsgs] using q1
          · intro m hm
            simp only [errMsgs_append, hc1, errMsgs, List.nil_append] at hm
            exact Or.inl (q2 m hm)
          · intro q hq
            simp [mkdirPaths_append, hc4, q3, mkdirPaths] at hq
            rcases hq with h | h | h <;> simp [h]
          · intro q hq
            simp only [rmtreePaths_append, q4, rmtreePaths,
              List.append_nil] at hq
            exact hc5 q hq
          · intro h
            simp [rmtreePaths_append, hc6 h, q4, rmtreePaths]
          · intro h
            simp [hasFailedRun_append, hc3, q5 h, hasFailedRun]
        · have hbp : build_project pr tp? a? c v bt hs ndk sdp bde cde cpu
              r1 r2 r3 =
              ((if c then
                  (if bde then [Event.rmtree (pr ++ "/build")] else []) ++
                  (if cde then [Event.rmtree (pr ++ "/conan")] else [])
                else []) ++
                [Event.mkdir (pr ++ "/build"),
                 Event.mkdir (pr ++ "/conan")] ++
                [Event.err ("Error: Unsupported platform: " ++
                  resolve_platform tp? hs)],
               false) := by
            simp [build_project, hw, hl, han, hqx]
          simp only [hbp]
          refine ⟨?_, ?_, ?_, ?_, ?_, ?_⟩
          · simp [errMsgs_append, hc1, errMsgs]
          · intro m hm
            simp only [errMsgs_append, hc1, errMsgs, List.nil_append,
              List.mem_singleton] at hm
            exact Or.inr (Or.inl ⟨resolve_platform tp? hs, hm⟩)
          · intro q hq
            simp [mkdirPaths_append, hc4, mkdirPaths] at hq
            rcases hq with h | h <;> simp [h]
          · intro q hq
            simp only [rmtreePaths_append, rmtreePaths,
              List.append_nil] at hq
            exact hc5 q hq
          · intro h
            simp [rmtreePaths_append, hc6 h, rmtreePaths]
          · intro h
            simp at h

/-- C5 counterexample: with target android and a `conan --version` probe
exiting 1, the prerequisite check runs only one version probe (not two) and
never checks `ANDROID_NDK_HOME`. -/
theorem C5_counterexample :
    (runCmds (check_prerequisites (some "android") (ProcResult.exit 1)
        (ProcResult.exit 0) (some "/opt/ndk") none
        (fun _ => true)).1).length = 1 ∧
    (runCmds (check_prerequisites (some "android") (ProcResult.exit 1)
        (ProcResult.exit 0) (some "/opt/ndk") none
        (fun _ => true)).1).length ≠ 2 ∧
    checkedEnv "ANDROID_NDK_HOME" (check_prerequisites (some "android")
        (ProcResult.exit 1) (ProcResult.exit 0) (some "/opt/ndk") none
        (fun _ => true)).1 = false := by
  decide

/-- C5 (amended): the prerequisite check attempts at most two version probes
— `conan --version` first, and `cmake --version` exactly when the first
succeeds — and checks the SDK environment variable exactly when both probes
succeed and the target is android (resp. qnx), in which case its verdict is
whether the variable is set, non-empty, and an existing path. -/
theorem C5_prerequisite_probes (t : Option String) (cp mp : ProcResult)
    (ndk sdp : Option String) (pe : String → Bool) :
    (probeOk cp = false →
      runCmds (check_prerequisites t cp mp ndk sdp pe).1 =
        [["conan", "--version"]]) ∧
    (probeOk cp = true →
      runCmds (check_prerequisites t cp mp ndk sdp pe).1 =
        [["conan", "--version"], ["cmake", "--version"]]) ∧
    (checkedEnv "ANDROID_NDK_HOME"
        (check_prerequisites t cp mp ndk sdp pe).1 = true ↔
      probeOk cp = true ∧ probeOk mp = true ∧ t = some "android") ∧
    (checkedEnv "QNX_SDP_HOME"
        (check_prerequisites t cp mp ndk sdp pe).1 = true ↔
      probeOk cp = true ∧ probeOk mp = true ∧ t = some "qnx") ∧
    (probeOk cp = true → probeOk mp = true → t = some "android" →
      ((check_prerequisites t cp mp ndk sdp pe).2 = true ↔
        ∃ p, ndk = some p ∧ p.isEmpty = false ∧ pe p = true)) ∧
    (probeOk cp = true → probeOk mp = true → t = some "qnx" →
      ((check_prerequisites t cp mp ndk sdp pe).2 = true ↔
        ∃ p, sdp = some p ∧ p.isEmpty = false ∧ pe p = true)) := by
  obtain ⟨p1, p2, p3, p4, p5, p6, p7, p8, p9, p10, p11⟩ :=
    prereq_facts t cp mp ndk sdp pe
  exact ⟨fun hc => (p1 hc).1, p2, p3, p4, p5, p6⟩

/-- Witness for C5: with both probes succeeding and target android, exactly
the two probes run and the NDK variable is checked. -/
theorem C5_prerequisite_probes_witness :
    runCmds (check_prerequisites (some "android") (ProcResult.exit 0)
        (ProcResult.exit 0) (some "/opt/ndk") none (fun _ => true)).1 =
      [["conan", "--version"], ["cmake", "--version"]] ∧
    checkedEnv "ANDROID_NDK_HOME" (check_prerequisites (some "android")
        (ProcResult.exit 0) (ProcResult.exit 0) (some "/opt/ndk") none
        (fun _ => true)).1 = true := by
  have h := C5_prerequisite_probes (some "android") (ProcResult.exit 0)
    (ProcResult.exit 0) (some "/opt/ndk") none (fun _ => true)
  exact ⟨h.2.1 (by decide), h.2.2.1.mpr ⟨by decide, by decide, rfl⟩⟩

/-- C6: the trace of `main` is the prerequisite-check trace followed, only
when that check succeeded, by the build trace; when a prerequisite check
fails, the exit code is 1 and every attempted external command was one of the
two version probes — no install or build command is ever invoked. -/
theorem C6_prereqs_before_build (a : Args) (w : World) :
    (main a w).1 =
      (check_prerequisites a.platform w.conanProbe w.cmakeProbe
          w.androidNdkHome w.qnxSdpHome w.pathExists).1 ++
        (if (check_prerequisites a.platform w.conanProbe w.cmakeProbe
            w.androidNdkHome w.qnxSdpHome w.pathExists).2 then
          (build_project w.projectRoot a.platform a.arch a.clean a.verbose
            a.buildType w.hostSystem w.androidNdkHome w.qnxSdpHome
            w.buildDirExists w.conanDirExists w.cpuCount w.r1 w.r2 w.r3).1
        else []) ∧
    ((check_prerequisites a.platform w.conanProbe w.cmakeProbe
        w.androidNdkHome w.qnxSdpHome w.pathExists).2 = false →
      (main a w).2 = 1 ∧
      ∀ cmd ∈ runCmds (main a w).1,
        cmd = ["conan", "--version"] ∨ cmd = ["cmake", "--version"]) := by
  obtain ⟨p1, p2, p3, p4, p5, p6, p7, p8, p9, p10, p11⟩ :=
    prereq_facts a.platform w.conanProbe w.cmakeProbe w.androidNdkHome
      w.qnxSdpHome w.pathExists
  constructor
  · by_cases hp : (check_prerequisites a.platform w.conanProbe w.cmakeProbe
        w.androidNdkHome w.qnxSdpHome w.pathExists).2 <;>
      simp [main, hp]
  · intro hfail
    have hm1 : (main a w).1 =
        (check_prerequisites a.platform w.conanProbe w.cmakeProbe
          w.androidNdkHome w.qnxSdpHome w.pathExists).1 := by
      simp [main, hfail]
    refine ⟨by simp [main, hfail], ?_⟩
    intro cmd hcmd
    rw [hm1] at hcmd
    have hopts : runCmds (check_prerequisites a.platform w.conanProbe
          w.cmakeProbe w.androidNdkHome w.qnxSdpHome w.pathExists).1 =
            [["conan", "--version"]] ∨
        runCmds (check_prerequisites a.platform w.conanProbe w.cmakeProbe
          w.androidNdkHome w.qnxSdpHome w.pathExists).1 =
            [["conan", "--version"], ["cmake", "--version"]] := by
      cases hcp : probeOk w.conanProbe
      · exact Or.inl (p1 hcp).1
      · exact Or.inr (p2 hcp)
    rcases hopts with ho | ho
    · rw [ho] at hcmd
      exact Or.inl (List.mem_singleton.mp hcmd)
    · rw [ho] at hcmd
      rcases List.mem_cons.mp hcmd with h | h
      · exact Or.inl h
      · exact Or.inr (List.mem_singleton.mp h)

/-- Witness for C6: with a failing `conan` probe the run exits 1 having
attempted only the conan version probe. -/
theorem C6_prereqs_before_build_witness :
    (main exArgsLinux { exWorld with conanProbe := ProcResult.exit 1 }).2 =
      1 ∧
    runCmds (main exArgsLinux
        { exWorld with conanProbe := ProcResult.exit 1 }).1 =
      [["conan", "--version"]] := by
  have h := (C6_prereqs_before_build exArgsLinux
    { exWorld with conanProbe := ProcResult.exit 1 }).2 (by decide)
  exact ⟨h.1, by decide⟩

/-- C3: the parser declares exactly the options `--platform`, `--arch`,
`--build-type`, `--verbose` (with short form `-v`) and `--clean`; the exit
code is always 0 or 1, it is 0 exactly when the prerequisite check and the
build both succeed, and any failed external command forces exit code 1. -/
theorem C3_cli_and_exit_codes :
    cliOptions.map CliOption.flags =
      [["--platform"], ["--arch"], ["--build-type"], ["--verbose", "-v"],
       ["--clean"]] ∧
    (∀ (a : Args) (w : World), (main a w).2 = 0 ∨ (main a w).2 = 1) ∧
    (∀ (a : Args) (w : World), ((main a w).2 = 0 ↔
      (check_prerequisites a.platform w.conanProbe w.cmakeProbe
          w.androidNdkHome w.qnxSdpHome w.pathExists).2 = true ∧
      (build_project w.projectRoot a.platform a.arch a.clean a.verbose
          a.buildType w.hostSystem w.androidNdkHome w.qnxSdpHome
          w.buildDirExists w.conanDirExists w.cpuCount w.r1 w.r2 w.r3).2 =
        true)) ∧
    (∀ (a : Args) (w : World),
      hasFailedRun (main a w).1 = true → (main a w).2 = 1) := by
  refine ⟨rfl, ?_, ?_, ?_⟩
  · intro a w
    by_cases hp : (check_prerequisites a.platform w.conanProbe w.cmakeProbe
        w.androidNdkHome w.qnxSdpHome w.pathExists).2
    · by_cases hb : (build_project w.projectRoot a.platform a.arch a.clean
          a.verbose a.buildType w.hostSystem w.androidNdkHome w.qnxSdpHome
          w.buildDirExists w.conanDirExists w.cpuCount w.r1 w.r2 w.r3).2 <;>
        simp [main, hp, hb]
    · simp [main, hp]
  · intro a w
    by_cases hp : (check_prerequisites a.platform w.conanProbe w.cmakeProbe
        w.androidNdkHome w.qnxSdpHome w.pathExists).2
    · by_cases hb : (build_project w.projectRoot a.platform a.arch a.clean
          a.verbose a.buildType w.hostSystem w.androidNdkHome w.qnxSdpHome
          w.buildDirExists w.conanDirExists w.cpuCount w.r1 w.r2 w.r3).2 <;>
        simp [main, hp, hb]
    · simp [main, hp]
  · intro a w h
    by_cases hp : (check_prerequisites a.platform w.conanProbe w.cmakeProbe
        w.androidNdkHome w.qnxSdpHome w.pathExists).2
    · by_cases hb : (build_project w.projectRoot a.platform a.arch a.clean
          a.verbose a.buildType w.hostSystem w.androidNdkHome w.qnxSdpHome
          w.buildDirExists w.conanDirExists w.cpuCount w.r1 w.r2 w.r3).2
      · exfalso
        obtain ⟨p1, p2, p3, p4, p5, p6, p7, p8, p9, p10, p11⟩ :=
          prereq_facts a.platform w.conanProbe w.cmakeProbe w.androidNdkHome
            w.qnxSdpHome w.pathExists
        obtain ⟨b1, b2, b3, b4, b5, b6⟩ :=
          bp_facts w.projectRoot a.platform a.arch a.clean a.verbose
            a.buildType w.hostSystem w.androidNdkHome w.qnxSdpHome
            w.buildDirExists w.conanDirExists w.cpuCount w.r1 w.r2 w.r3
        have hm : (main a w).1 =
            (check_prerequisites a.platform w.conanProbe w.cmakeProbe
              w.androidNdkHome w.qnxSdpHome w.pathExists).1 ++
            (build_project w.projectRoot a.platform a.arch a.clean a.verbose
              a.buildType w.hostSystem w.androidNdkHome w.qnxSdpHome
              w.buildDirExists w.conanDirExists w.cpuCount w.r1 w.r2
              w.r3).1 := by
          simp [main, hp]
        rw [hm, hasFailedRun_append, p11 hp, b6 hb] at h
        simp at h
      · simp [main, hp, hb]
    · simp [main, hp]

/-- Witness for C3: a failing dependency-install command makes the process
exit 1. -/
theorem C3_cli_and_exit_codes_witness :
    (main exArgsLinux { exWorld with r1 := 1 }).2 = 1 :=
  C3_cli_and_exit_codes.2.2.2 exArgsLinux { exWorld with r1 := 1 }
    (by decide)

/-- C7 counterexample: on a macOS host with both tools present, the script
fails with "Error: Unsupported platform: macos" — a failure that is neither
a missing prerequisite nor a subprocess returning non-zero, refuting the
claimed two-kind error taxonomy. -/
theorem C7_counterexample :
    validArgs exArgsAuto = true ∧
    (main exArgsAuto exWorldMac).2 = 1 ∧
    errMsgs (main exArgsAuto exWorldMac).1 =
      ["Error: Unsupported platform: macos"] ∧
    "Error: Unsupported platform: macos" ∉ prereqErrorMsgs ∧
    "Error: Unsupported platform: macos" ∉ subprocessErrorMsgs := by
  decide

/-- C7 (amended): every run exits 0 or 1, exits 1 exactly when it printed an
error message, and every error message is a missing prerequisite, a
subprocess returning non-zero, an unsupported platform, or an unsupported
Android architecture. -/
theorem C7_error_taxonomy (a : Args) (w : World) :
    ((main a w).2 = 1 ↔ errMsgs (main a w).1 ≠ []) ∧
    (∀ m ∈ errMsgs (main a w).1,
      m ∈ prereqErrorMsgs ∨ m ∈ subprocessErrorMsgs ∨
        (∃ p, m = "Error: Unsupported platform: " ++ p) ∨
        (∃ ar, m = "Error: Unsupported Android architecture: " ++ ar)) := by
  obtain ⟨p1, p2, p3, p4, p5, p6, p7, p8, p9, p10, p11⟩ :=
    prereq_facts a.platform w.conanProbe w.cmakeProbe w.androidNdkHome
      w.qnxSdpHome w.pathExists
  obtain ⟨b1, b2, b3, b4, b5, b6⟩ :=
    bp_facts w.projectRoot a.platform a.arch a.clean a.verbose a.buildType
      w.hostSystem w.androidNdkHome w.qnxSdpHome w.buildDirExists
      w.conanDirExists w.cpuCount w.r1 w.r2 w.r3
  by_cases hp : (check_prerequisites a.platform w.conanProbe w.cmakeProbe
      w.androidNdkHome w.qnxSdpHome w.pathExists).2
  · have hm : (main a w).1 =
        (check_prerequisites a.platform w.conanProbe w.cmakeProbe
          w.androidNdkHome w.qnxSdpHome w.pathExists).1 ++
        (build_project w.projectRoot a.platform a.arch a.clean a.verbose
          a.buildType w.hostSystem w.androidNdkHome w.qnxSdpHome
          w.buildDirExists w.conanDirExists w.cpuCount w.r1 w.r2 w.r3).1 := by
      simp [main, hp]
    constructor
    · by_cases hb : (build_project w.projectRoot a.platform a.arch a.clean
          a.verbose a.buildType w.hostSystem w.androidNdkHome w.qnxSdpHome
          w.buildDirExists w.conanDirExists w.cpuCount w.r1 w.r2 w.r3).2
      · simp [main, hp, hb, hm, errMsgs_append, p7.mp hp, b1.mp hb]
      · have hne : errMsgs (build_project w.projectRoot a.platform a.arch
            a.clean a.verbose a.buildType w.hostSystem w.androidNdkHome
            w.qnxSdpHome w.buildDirExists w.conanDirExists w.cpuCount w.r1
            w.r2 w.r3).1 ≠ [] := fun hnil => hb (b1.mpr hnil)
        simp [main, hp, hb, hm, errMsgs_append, p7.mp hp, hne]
    · intro m hmem
      rw [hm, errMsgs_append] at hmem
      rcases List.mem_append.mp hmem with h | h
      · exact Or.inl (p8 m h)
      · rcases b2 m h with h' | h' | h'
        · exact Or.inr (Or.inl h')
        · exact Or.inr (Or.inr (Or.inl h'))
        · exact Or.inr (Or.inr (Or.inr h'))
  · have hm : (main a w).1 =
        (check_prerequisites a.platform w.conanProbe w.cmakeProbe
          w.androidNdkHome w.qnxSdpHome w.pathExists).1 := by
      simp [main, hp]
    have hne : errMsgs (check_prerequisites a.platform w.conanProbe
        w.cmakeProbe w.androidNdkHome w.qnxSdpHome w.pathExists).1 ≠ [] :=
      fun hnil => hp (p7.mpr hnil)
    constructor
    · simp [main, hp, hm, hne]
    · intro m hmem
      rw [hm] at hmem
      exact Or.inl (p8 m hmem)

/-- Witness for C7: the failing-probe run exits 1, by the error-message
equivalence. -/
theorem C7_error_taxonomy_witness :
    (main exArgsLinux { exWorld with conanProbe := ProcResult.notFound }).2 =
      1 :=
  (C7_error_taxonomy exArgsLinux
    { exWorld with conanProbe := ProcResult.notFound }).1.mpr (by decide)

/-- C8 counterexample: with `--clean` and an existing build directory the
script removes it — it does delete existing filesystem entries. -/
theorem C8_counterexample :
    Event.rmtree "/proj/build" ∈
      (main { exArgsLinux with clean := true }
        { exWorld with buildDirExists := true }).1 := by
  decide

/-- C8 (amended): without `--clean` the script never removes anything; every
directory it creates is the build directory, the Conan directory, or the
`build/android` / `build/qnx` subdirectory; with `--clean` the only removals
are the build and Conan directories. -/
theorem C8_filesystem_effects (a : Args) (w : World) :
    (a.clean = false → rmtreePaths (main a w).1 = []) ∧
    (∀ q ∈ mkdirPaths (main a w).1,
      q = w.projectRoot ++ "/build" ∨ q = w.projectRoot ++ "/conan" ∨
        q = w.projectRoot ++ "/build" ++ "/android" ∨
        q = w.projectRoot ++ "/build" ++ "/qnx") ∧
    (∀ q ∈ rmtreePaths (main a w).1,
      q = w.projectRoot ++ "/build" ∨ q = w.projectRoot ++ "/conan") := by
  obtain ⟨p1, p2, p3, p4, p5, p6, p7, p8, p9, p10, p11⟩ :=
    prereq_facts a.platform w.conanProbe w.cmakeProbe w.androidNdkHome
      w.qnxSdpHome w.pathExists
  obtain ⟨b1, b2, b3, b4, b5, b6⟩ :=
    bp_facts w.projectRoot a.platform a.arch a.clean a.verbose a.buildType
      w.hostSystem w.androidNdkHome w.qnxSdpHome w.buildDirExists
      w.conanDirExists w.cpuCount w.r1 w.r2 w.r3
  by_cases hp : (check_prerequisites a.platform w.conanProbe w.cmakeProbe
      w.androidNdkHome w.qnxSdpHome w.pathExists).2
  · have hm : (main a w).1 =
        (check_prerequisites a.platform w.conanProbe w.cmakeProbe
          w.androidNdkHome w.qnxSdpHome w.pathExists).1 ++
        (build_project w.projectRoot a.platform a.arch a.clean a.verbose
          a.buildType w.hostSystem w.androidNdkHome w.qnxSdpHome
          w.buildDirExists w.conanDirExists w.cpuCount w.r1 w.r2 w.r3).1 := by
      simp [main, hp]
    refine ⟨?_, ?_, ?_⟩
    · intro hc
      rw [hm, rmtreePaths_append, p10, b5 hc]
      rfl
    · intro q hq
      rw [hm, mkdirPaths_append, p9] at hq
      exact b3 q (by simpa using hq)
    · intro q hq
      rw [hm, rmtreePaths_append, p10] at hq
      exact b4 q (by simpa using hq)
  · have hm : (main a w).1 =
        (check_prerequisites a.platform w.conanProbe w.cmakeProbe
          w.androidNdkHome w.qnxSdpHome w.pathExists).1 := by
      simp [main, hp]
    refine ⟨?_, ?_, ?_⟩
    · intro _
      rw [hm, p10]
    · intro q hq
      rw [hm, p9] at hq
      simp at hq
    · intro q hq
      rw [hm, p10] at hq
      simp at hq

/-- Witness for C8: a run without `--clean` removes nothing. -/
theorem C8_filesystem_effects_witness :
    rmtreePaths (main exArgsLinux exWorld).1 = [] :=
  (C8_filesystem_effects exArgsLinux exWorld).1 (by decide)

end Build
